import Mathlib

/-!
Shallow embedding of `StateManager` (src/StateManager.cpp, src/StateManager.hpp),
a registry of named states with tick and advertise callbacks.

Modelling decisions, all taken from the C++ source:

* `struct State` holds a name and two function pointers. `addState` creates a
  `State` with `State state;` and only assigns `stateName`, so both pointers are
  indeterminate. We model each slot as an `Option`; `none` is the uninitialized
  pointer, and invoking it yields no defined result, so every operation that may
  invoke a callback returns an `Option` which is `none` on such an invocation.
* The member `State &activeState` is a C++ reference initialized in the
  constructor initializer list to the member `dummyState`. A reference can never
  be reseated, so every later `activeState = x` is a copy-assignment that writes
  `x`'s fields into the `dummyState` member, and `activeState = dummyState`
  (in the constructor and in `removeState`) is a self-assignment with no effect.
  We therefore carry the `dummyState` member in the record and read the active
  state through `StateManager.activeState`, which returns that member; an
  assignment through the reference becomes an update of the `dummyState` field.
* `State::operator==` compares only `stateName`, which is what
  `std::find` uses inside `removeState`.
* Callbacks are C function pointers invoked synchronously; we model a tick as
  `Unit → Bool` and an advertise callback as `String → Bool`, pure values.
-/

/-- `struct State`: a name plus two callback slots. A slot is `none` when the
underlying function pointer was never initialized (as `addState` leaves it). -/
structure State where
  stateName : String
  stateFunction : Option (Unit → Bool)
  transitionToState : Option (String → Bool)

/-- `static bool dummyStateFunction()` — the sentinel's tick. -/
def dummyStateFunction : Unit → Bool := fun _ => false

/-- `static bool dummyTransitionToState(string)` — the sentinel's advertise. -/
def dummyTransitionToState : String → Bool := fun _ => false

/-- The `StateManager` object: the `noStates` flag, the `dummyState` member
(which the reference `activeState` permanently aliases), and the vector
`states`. -/
structure StateManager where
  noStates : Bool
  dummyState : State
  states : List State

namespace StateManager

/-- Reading `activeState`: the reference is bound to the `dummyState` member for
the whole life of the object, so reading it yields that member. -/
def activeState (sm : StateManager) : State :=
  sm.dummyState

/-- The constructor `StateManager()`: sets up the sentinel fields, sets
`noStates`, performs the (no-effect) self-assignment `activeState = dummyState`,
and installs an empty vector. -/
def init : StateManager :=
  { noStates := true
    dummyState :=
      { stateName := "dummyState"
        stateFunction := some dummyStateFunction
        transitionToState := some dummyTransitionToState }
    states := [] }

/-- `getStateByName`: linear search of `states` for the first entry with the
given name (the C++ returns a pointer into the vector; mutating callers below
update that first entry in place). -/
def getStateByName (sm : StateManager) (stateName : String) : Option State :=
  sm.states.find? (fun s => s.stateName == stateName)

/-- `bool run()`: invoke the active state's tick and return its result.
`none` when the tick slot is an uninitialized pointer. -/
def run (sm : StateManager) : Option Bool :=
  sm.activeState.stateFunction.map (fun f => f ())

/-- The scan loop shared by `transition()` and `run(true)`: walk `states` in
order, invoke each entry's advertise callback on the active state's name, and
stop at the first entry `s` with `s.transitionToState(activeName) &&
activeName != s.stateName`. Result: `none` when an uninitialized advertise
slot is invoked, `some none` when the loop falls through with no match,
`some (some s)` when `s` is selected. -/
def scan (activeName : String) : List State → Option (Option State)
  | [] => some none
  | s :: rest =>
    match s.transitionToState with
    | none => none
    | some f =>
      if f activeName && activeName != s.stateName then some (some s)
      else scan activeName rest

/-- The names of the registry entries whose advertise callback the scan loop
invokes, in invocation order (the entry on which the loop stops included). -/
def scanInvoked (activeName : String) : List State → List String
  | [] => []
  | s :: rest =>
    match s.transitionToState with
    | none => [s.stateName]
    | some f =>
      if f activeName && activeName != s.stateName then [s.stateName]
      else s.stateName :: scanInvoked activeName rest

/-- `bool transition()`: run the scan; on a match, `activeState = s` writes the
entry into the `dummyState` member and the call returns true, otherwise false
with the object unchanged. -/
def transition (sm : StateManager) : Option (Bool × StateManager) :=
  match scan sm.activeState.stateName sm.states with
  | none => none
  | some none => some (false, sm)
  | some (some s) => some (true, { sm with dummyState := s })

/-- `bool run(bool transitionToo)`: invoke the active tick first, then, when
the flag is set, perform the same scan as `transition()`; the tick result is
returned either way. -/
def runB (sm : StateManager) (transitionToo : Bool) : Option (Bool × StateManager) :=
  match sm.activeState.stateFunction with
  | none => none
  | some f =>
    let stateRan := f ()
    if transitionToo then
      match scan sm.activeState.stateName sm.states with
      | none => none
      | some none => some (stateRan, sm)
      | some (some s) => some (stateRan, { sm with dummyState := s })
    else some (stateRan, sm)

/-- `bool transition(string stateName)`: look the name up; on success
`activeState = *state` copies the entry into the `dummyState` member. -/
def transitionTo (sm : StateManager) (stateName : String) : Bool × StateManager :=
  match sm.getStateByName stateName with
  | none => (false, sm)
  | some st => (true, { sm with dummyState := st })

/-- `bool addState(string stateName)`: reject when the name is already present;
otherwise push a `State` whose two callback slots are left uninitialized. -/
def addState (sm : StateManager) (stateName : String) : Bool × StateManager :=
  match sm.getStateByName stateName with
  | some _ => (false, sm)
  | none =>
    (true, { sm with
      states := sm.states ++
        [{ stateName := stateName, stateFunction := none, transitionToState := none }] })

/-- `bool removeState(string stateName)`: look the name up; the guarded
`activeState = dummyState` is a self-assignment through the reference and has
no effect; erase the first entry equal (by name) to the found one; if the
vector became empty, set `noStates`, self-assign again (no effect), and push a
copy of the current `dummyState` member. -/
def removeState (sm : StateManager) (stateName : String) : Bool × StateManager :=
  match sm.getStateByName stateName with
  | none => (false, sm)
  | some st =>
    let states1 := sm.states.eraseP (fun s => s.stateName == st.stateName)
    if states1.length == 0 then
      (true, { sm with noStates := true, states := [sm.dummyState] })
    else
      (true, { sm with states := states1 })

/-- In-place mutation through the pointer `getStateByName` returns: update the
first entry with the given name. -/
def updateFirst (stateName : String) (upd : State → State) : List State → List State
  | [] => []
  | s :: rest =>
    if s.stateName == stateName then upd s :: rest
    else s :: updateFirst stateName upd rest

/-- `bool setStateFunction(string, bool (*)())`: replace the tick slot of the
first registry entry with the given name; false when absent. -/
def setStateFunction (sm : StateManager) (stateName : String) (f : Unit → Bool) :
    Bool × StateManager :=
  match sm.getStateByName stateName with
  | none => (false, sm)
  | some _ =>
    (true, { sm with
      states := updateFirst stateName (fun s => { s with stateFunction := some f }) sm.states })

/-- `bool setTransitionToState(string, bool (*)(string))`: replace the
advertise slot of the first registry entry with the given name. -/
def setTransitionToState (sm : StateManager) (stateName : String) (f : String → Bool) :
    Bool × StateManager :=
  match sm.getStateByName stateName with
  | none => (false, sm)
  | some _ =>
    (true, { sm with
      states := updateFirst stateName (fun s => { s with transitionToState := some f }) sm.states })

/-- Modelled from the spec: `string getActiveStateName()` is declared in
src/StateManager.hpp but no definition exists in the repository. Per the spec's
operation table, `activeName()` returns the current active state's name; the
active state is whatever the `activeState` reference designates. -/
def getActiveStateName (sm : StateManager) : String :=
  sm.activeState.stateName

end StateManager

-- Concrete callbacks used by the scenario states below.

/-- A tick callback that always succeeds. -/
def tickTrue : Unit → Bool := fun _ => true

/-- A tick callback that always fails. -/
def tickFalse : Unit → Bool := fun _ => false

/-- An advertise callback that accepts every active-state name. -/
def advTrue : String → Bool := fun _ => true

-- Concrete controller states reached by short operation sequences.

/-- `add("A"); bindTick("A", tickTrue); transitionTo("A")`: the entry for A
(with its bound tick) has been copied into the `dummyState` member. -/
def smActiveA : StateManager :=
  (((StateManager.init.addState "A").2.setStateFunction "A" tickTrue).2.transitionTo "A").2

/-- `smActiveA` followed by `remove("A")`: the registry became empty, so a copy
of the current `dummyState` member — which holds A's fields — was pushed back. -/
def smRemovedActive : StateManager :=
  (smActiveA.removeState "A").2

/-- `add("A"); add("B"); transitionTo("A"); remove("A")`: the active copy keeps
the name A while the registry holds only B. -/
def smActiveGone : StateManager :=
  ((((StateManager.init.addState "A").2.addState "B").2.transitionTo "A").2.removeState "A").2

/-- `add("A"); remove("A")` on a fresh controller: the pristine sentinel copy
is pushed back into the registry. -/
def smSentinelBack : StateManager :=
  ((StateManager.init.addState "A").2.removeState "A").2

/-- `add("A"); bindAdvertise("A", advTrue)` on a fresh controller: a single
registry entry that advertises for every active name; active is the pristine
sentinel. -/
def smAdv : StateManager :=
  ((StateManager.init.addState "A").2.setTransitionToState "A" advTrue).2

/-- The condition on which the scan loop stops at an entry `s` when scanning
with active name `activeName`: the advertise slot is initialized, accepts
`activeName`, and `s` is not the active state itself. -/
def selects (activeName : String) (s : State) : Bool :=
  match s.transitionToState with
  | none => false
  | some f => f activeName && activeName != s.stateName

-- Helper lemmas shared by the claim theorems.

/-- Looking a name up after an in-place update of the first entry with that
name finds the updated entry (when the update preserves the name). -/
theorem find?_updateFirst (stateName : String) (upd : State → State)
    (hname : ∀ s, (upd s).stateName = s.stateName) :
    ∀ l : List State,
      (StateManager.updateFirst stateName upd l).find? (fun s => s.stateName == stateName)
        = (l.find? (fun s => s.stateName == stateName)).map upd := by
  intro l
  induction l with
  | nil => rfl
  | cons s rest ih =>
    by_cases hb : (s.stateName == stateName) = true
    · simp [StateManager.updateFirst, hb, List.find?, hname]
    · rw [Bool.not_eq_true] at hb
      simp [StateManager.updateFirst, hb, List.find?, ih]

/-- When every advertise slot in the list is initialized, the scan loop is
exactly a first-match search with the `selects` condition. -/
theorem scan_eq_find? (activeName : String) :
    ∀ l : List State, (∀ s ∈ l, s.transitionToState.isSome) →
      StateManager.scan activeName l = some (l.find? (selects activeName)) := by
  intro l
  induction l with
  | nil => intro _; rfl
  | cons s rest ih =>
    intro h
    have hs := h s (List.mem_cons_self s rest)
    cases hst : s.transitionToState with
    | none => rw [hst] at hs; simp at hs
    | some f =>
      have hrest := ih (fun x hx => h x (List.mem_cons_of_mem s hx))
      by_cases hc : (f activeName && activeName != s.stateName) = true
      · simp [StateManager.scan, hst, hc, List.find?, selects]
      · simp [StateManager.scan, hst, hc, List.find?, selects, hrest]

/-- C1: the claim says that after `remove(activeName())` the active name is
"dummyState" and `drive()` returns false until a later transition. On the code,
`activeState` is a reference permanently bound to the `dummyState` member, so
the `activeState = dummyState` inside `removeState` is a self-assignment with
no effect: after `add("A"); bindTick("A", tickTrue); transitionTo("A");
remove("A")` the removal reports success, yet the active name is still "A" and
`drive()` still returns true. -/
theorem removeActive_leaves_stale_active :
    (smActiveA.removeState "A").1 = true ∧
    smRemovedActive.getActiveStateName = "A" ∧
    smRemovedActive.run = some true :=
  ⟨rfl, rfl, rfl⟩

/-- C2: the claim says the active state's name is always "dummyState" or a
registry name. After `add("A"); add("B"); transitionTo("A"); remove("A")` the
active name is "A" while the registry holds only "B": the invariant fails. -/
theorem active_name_escapes_registry :
    ¬ (smActiveGone.getActiveStateName = "dummyState" ∨
        smActiveGone.getActiveStateName ∈ smActiveGone.states.map State.stateName) := by
  decide

/-- C3 counterexample: bind a tick while the state is active. After
`add("A"); bindTick("A", tickFalse); transitionTo("A")`, a second
`bindTick("A", tickTrue)` reports success, yet `drive()` still returns the
result of the tick A had when it became active (false), not `tickTrue () =
true` as the claim requires: the active copy in the `dummyState` member is not
updated by `setStateFunction`. -/
theorem setStateFunction_after_activation_stale :
    (((((StateManager.init.addState "A").2.setStateFunction "A"
          tickFalse).2.transitionTo "A").2.setStateFunction "A" tickTrue).1 = true) ∧
    ((((((StateManager.init.addState "A").2.setStateFunction "A"
          tickFalse).2.transitionTo "A").2.setStateFunction "A" tickTrue).2).run = some false) :=
  ⟨rfl, rfl⟩

/-- C3 amended: a tick bound with `setStateFunction` governs `drive()` from the
next activation on — after a successful `setStateFunction(n, f)`, a
`transitionTo(n)` succeeds and a subsequent `drive()` returns `f ()`; a bind
does not affect a copy that is already active. -/
theorem setStateFunction_then_transitionTo_applies
    (sm : StateManager) (n : String) (f : Unit → Bool)
    (h : (sm.setStateFunction n f).1 = true) :
    ((sm.setStateFunction n f).2.transitionTo n).1 = true ∧
    (((sm.setStateFunction n f).2.transitionTo n).2).run = some (f ()) := by
  cases hf : sm.getStateByName n with
  | none =>
    exfalso
    unfold StateManager.setStateFunction at h
    rw [hf] at h
    simp at h
  | some st =>
    unfold StateManager.setStateFunction at h ⊢
    rw [hf] at h ⊢
    have hfind :
        (StateManager.updateFirst n (fun s => { s with stateFunction := some f })
            sm.states).find? (fun s => s.stateName == n)
          = some { st with stateFunction := some f } := by
      rw [find?_updateFirst n (fun s => { s with stateFunction := some f })
            (fun _ => rfl) sm.states]
      rw [show sm.states.find? (fun s => s.stateName == n) = some st from hf]
      rfl
    simp only [StateManager.transitionTo, StateManager.getStateByName, hfind]
    exact ⟨trivial, rfl⟩

/-- C3 witness: the amended theorem at a concrete input — bind `tickTrue` on
the registered state "A", transition to it, and observe `drive() = true`. -/
theorem setStateFunction_then_transitionTo_applies_witness :
    (((StateManager.init.addState "A").2.setStateFunction "A" tickTrue).2.transitionTo "A").1
        = true ∧
    ((((StateManager.init.addState "A").2.setStateFunction "A" tickTrue).2.transitionTo "A").2).run
        = some (tickTrue ()) :=
  setStateFunction_then_transitionTo_applies (StateManager.init.addState "A").2 "A" tickTrue rfl

/-- C4: the claim says a `remove` that empties the registry leaves exactly the
sentinel in the registry with the sentinel active. After `add("A");
bindTick("A", tickTrue); transitionTo("A"); remove("A")` the registry's single
entry is a copy of the `dummyState` member, which at that point holds A's
fields: the entry is named "A", not "dummyState". -/
theorem removeState_empty_reinserts_stale_copy :
    smRemovedActive.states.map State.stateName = ["A"] ∧
    smRemovedActive.getActiveStateName = "A" ∧
    ("A" : String) ≠ "dummyState" :=
  ⟨rfl, rfl, by decide⟩

/-- C5: the claim says a freshly added state's tick and advertise default to
predicates returning false. The code's `addState` builds the entry with
`State state;` and assigns only the name, leaving both function pointers
uninitialized (modelled as `none`): invoking them, e.g. `drive()` after
`transitionTo("A")`, has no defined result rather than returning false. -/
theorem addState_leaves_slots_unset :
    (StateManager.init.addState "A").1 = true ∧
    (StateManager.init.addState "A").2.states = [⟨"A", none, none⟩] ∧
    ((StateManager.init.addState "A").2.transitionTo "A").2.run = none :=
  ⟨rfl, rfl, rfl⟩

/-- C6 counterexample: after `add("A"); remove("A")` the registry holds the
pushed-back sentinel copy (name "dummyState", the sentinel's tick and advertise
functions), and the scan loop of a `transition()` from that state invokes that
entry's advertise callback — the sentinel's advertise — contradicting the claim
that it is never invoked by any transition scan. -/
theorem scan_invokes_sentinel_advertise :
    smSentinelBack.states =
      [⟨"dummyState", some dummyStateFunction, some dummyTransitionToState⟩] ∧
    StateManager.scanInvoked smSentinelBack.activeState.stateName smSentinelBack.states
      = ["dummyState"] :=
  ⟨rfl, rfl⟩

/-- C6 amended: when a sentinel entry sits in the registry, transition scans do
invoke its advertise callback, but that callback returns false on every input,
so a registry holding only the sentinel never produces a transition; and the
sentinel's tick returns false on every invocation. -/
theorem sentinel_declines_and_ticks_false :
    (∀ a, dummyTransitionToState a = false) ∧
    (∀ u, dummyStateFunction u = false) ∧
    (∀ sm : StateManager,
        sm.states = [⟨"dummyState", some dummyStateFunction, some dummyTransitionToState⟩] →
        sm.transition = some (false, sm)) := by
  refine ⟨fun _ => rfl, fun _ => rfl, fun sm h => ?_⟩
  unfold StateManager.transition
  rw [h]
  rfl

/-- C6 witness: the amended theorem at concrete inputs — the sentinel's
advertise declines the name "A", and the controller reached by
`add("A"); remove("A")` (whose registry is exactly the sentinel copy) scans
without finding a transition. -/
theorem sentinel_declines_and_ticks_false_witness :
    dummyTransitionToState "A" = false ∧
    smSentinelBack.transition = some (false, smSentinelBack) :=
  ⟨sentinel_declines_and_ticks_false.1 "A",
   sentinel_declines_and_ticks_false.2.2 smSentinelBack rfl⟩

/-- C7 counterexample: on a fresh controller the registry is empty — the
sentinel lives only in the `dummyState` member — so `addState("dummyState")`
finds no duplicate, returns true, and appends an entry named "dummyState",
contradicting the claim that `add("dummyState")` always returns false and
leaves the registry unchanged. -/
theorem addState_dummyState_fresh_accepted :
    (StateManager.init.addState "dummyState").1 = true ∧
    (StateManager.init.addState "dummyState").2.states.map State.stateName = ["dummyState"] :=
  ⟨rfl, rfl⟩

/-- C7 amended: `add("dummyState")` is treated like any other name — it is
rejected exactly when some registry entry is already named "dummyState" (as
after a remove that emptied the registry), and a rejection leaves the
controller unchanged. -/
theorem addState_dummyState_iff_absent (sm : StateManager) :
    (((sm.addState "dummyState").1 = true) ↔ ∀ s ∈ sm.states, s.stateName ≠ "dummyState") ∧
    (((sm.addState "dummyState").1 = false) → (sm.addState "dummyState").2 = sm) := by
  cases hf : sm.getStateByName "dummyState" with
  | none =>
    have hf' : sm.states.find? (fun s => s.stateName == "dummyState") = none := hf
    unfold StateManager.addState
    rw [hf]
    refine ⟨⟨fun _ s hs => ?_, fun _ => rfl⟩, fun hcon => absurd hcon (by simp)⟩
    have := List.find?_eq_none.mp hf' s hs
    simpa using this
  | some st =>
    have hf' : sm.states.find? (fun s => s.stateName == "dummyState") = some st := hf
    have hmem : st ∈ sm.states := List.mem_of_find?_eq_some hf'
    have hbeq : (st.stateName == "dummyState") = true :=
      List.find?_some (p := fun s : State => s.stateName == "dummyState") hf'
    have hname : st.stateName = "dummyState" := by simpa using hbeq
    unfold StateManager.addState
    rw [hf]
    refine ⟨⟨fun hcon => absurd hcon (by simp), fun hall => ?_⟩, fun _ => rfl⟩
    exact absurd hname (hall st hmem)

/-- C7 witness: the amended theorem applied to the controller reached by
`add("A"); remove("A")`, whose registry holds an entry named "dummyState":
the rejected `add` leaves the controller unchanged. -/
theorem addState_dummyState_iff_absent_witness :
    (smSentinelBack.addState "dummyState").2 = smSentinelBack :=
  (addState_dummyState_iff_absent smSentinelBack).2 rfl

/-- C8: when every registry entry has an initialized advertise slot,
`transition()` returns true and writes into the active slot the first entry
`s` in insertion order with `s.advertise(activeName)` true and `s.stateName`
different from the active name; when no such entry exists it returns false and
leaves the controller unchanged. -/
theorem transition_selects_first_advertiser (sm : StateManager)
    (h : ∀ s ∈ sm.states, s.transitionToState.isSome) :
    sm.transition =
      some (match sm.states.find? (selects sm.activeState.stateName) with
        | some s => (true, { sm with dummyState := s })
        | none => (false, sm)) := by
  unfold StateManager.transition
  rw [scan_eq_find? sm.activeState.stateName sm.states h]
  cases sm.states.find? (selects sm.activeState.stateName) <;> rfl

/-- C8 witness: on the controller `add("A"); bindAdvertise("A", advTrue)` with
the sentinel active, the scan selects the entry "A". -/
theorem transition_selects_first_advertiser_witness :
    smAdv.transition = some (true, { smAdv with dummyState := ⟨"A", none, some advTrue⟩ }) :=
  transition_selects_first_advertiser smAdv (by decide)

/-- C9: when the active tick slot is initialized, `run(true)` returns the
active tick's result paired with exactly the controller that `transition()`
would produce — the tick result is reported whether or not a transition
occurred, and the scan selects the same state (or none) as `transition()`. -/
theorem runTrue_agrees_with_transition (sm : StateManager) (f : Unit → Bool)
    (h : sm.activeState.stateFunction = some f) :
    sm.runB true = sm.transition.map (fun p => (f (), p.2)) := by
  unfold StateManager.runB StateManager.transition
  rw [h]
  cases hscan : StateManager.scan sm.activeState.stateName sm.states with
  | none => rfl
  | some o => cases o <;> rfl

/-- C9 witness: on the controller `add("A"); bindAdvertise("A", advTrue)` the
sentinel's tick reports false while the scan moves to "A", exactly as
`transition()` does. -/
theorem runTrue_agrees_with_transition_witness :
    smAdv.runB true = some (false, { smAdv with dummyState := ⟨"A", none, some advTrue⟩ }) :=
  runTrue_agrees_with_transition smAdv dummyStateFunction rfl

/-- C10: `transitionTo(n)` with `n` the current active name and present in the
registry returns true and leaves the active name equal to `n`: a direct
transition to the already-active state is permitted, unlike the scan's
self-election filter. -/
theorem transitionTo_current_state_succeeds (sm : StateManager) (n : String)
    (_h1 : sm.activeState.stateName = n) (h2 : (sm.getStateByName n).isSome) :
    (sm.transitionTo n).1 = true ∧ ((sm.transitionTo n).2).activeState.stateName = n := by
  cases hf : sm.getStateByName n with
  | none => rw [hf] at h2; simp at h2
  | some st =>
    have hf' : sm.states.find? (fun s => s.stateName == n) = some st := hf
    have hbeq : (st.stateName == n) = true :=
      List.find?_some (p := fun s : State => s.stateName == n) hf'
    have hname : st.stateName = n := by simpa using hbeq
    unfold StateManager.transitionTo
    rw [hf]
    exact ⟨rfl, hname⟩

/-- C10 witness: `add("A"); transitionTo("A")` makes "A" active; a second
`transitionTo("A")` succeeds and keeps the active name "A". -/
theorem transitionTo_current_state_succeeds_witness :
    ((((StateManager.init.addState "A").2.transitionTo "A").2).transitionTo "A").1 = true ∧
    (((((StateManager.init.addState "A").2.transitionTo "A").2).transitionTo
        "A").2).activeState.stateName = "A" :=
  transitionTo_current_state_succeeds
    (((StateManager.init.addState "A").2.transitionTo "A").2) "A" rfl rfl
